import Mathlib

/-!
Shallow embedding of the slack-ETHAN retrieval-and-answer pipeline.

Python strings are modelled as Lean `String`, with the Python primitives
`str.strip`, `str.split()` (whitespace splitting), `str.lower` (ASCII
lowercasing; the Japanese text occurring in this code base has no case) and
the substring test `a in b` re-implemented below.  Python floats are
modelled as rationals (`ℚ`); Python sets of strings as `Finset String`.
A value raising an exception is modelled as `Option.none` at the place
where the source catches it.
-/

/-- The whitespace characters recognised by Python's `str.strip` /
`str.split()` for the character ranges used in this code base. -/
def isPySpace (c : Char) : Bool :=
  c == ' ' || c == '\t' || c == '\n' || c == '\r' || c == '\x0b' || c == '\x0c'

/-- Python `str.strip()`: drop leading and trailing whitespace. -/
def pyStrip (s : String) : String :=
  (((s.toList.dropWhile isPySpace).reverse.dropWhile isPySpace).reverse).asString

/-- Helper for `pySplit`: split a character list on whitespace runs,
accumulating the current (reversed) word. -/
def splitWsAux : List Char → List Char → List (List Char)
  | [], acc => if acc.isEmpty then [] else [acc.reverse]
  | c :: cs, acc =>
    if isPySpace c then
      if acc.isEmpty then splitWsAux cs [] else acc.reverse :: splitWsAux cs []
    else splitWsAux cs (c :: acc)

/-- Python `str.split()` with no argument: maximal runs of
non-whitespace characters; never yields empty tokens. -/
def pySplit (s : String) : List String :=
  (splitWsAux s.toList []).map List.asString

/-- Python `str.lower()` restricted to ASCII (the Japanese characters in
this code base are unaffected by lowercasing). -/
def pyLower (s : String) : String :=
  (s.toList.map Char.toLower).asString

/-- Python's substring test `needle in hay` on character lists.
The empty needle is contained in everything, as in Python. -/
def containsSubList (n : List Char) : List Char → Bool
  | [] => n.isEmpty
  | c :: t => n.isPrefixOf (c :: t) || containsSubList n t

/-- Python's substring test `needle in hay` on strings. -/
def containsSubStr (n h : String) : Bool :=
  containsSubList n.toList h.toList

/-- A Slack message as the pipeline sees it: the `ts` timestamp string
(doubling as identity) and the message text. -/
structure Msg where
  ts : String
  text : String
deriving DecidableEq

/-- `SearchResult` from `slack_search_system.py`: a message, the set of
matched keywords and a relevance score. -/
structure SearchResult where
  message : Msg
  matched_keywords : Finset String
  relevance_score : ℚ
deriving DecidableEq

/-- The keywords (whitespace tokens of the lower-cased search terms)
occurring as substrings of `text`
(`SlackSearchSystem._find_keyword_matches`, inner loops), as a list; the
`matched_keywords` set is its `toFinset`. -/
def matched_keyword_list (search_terms : List String) (text : String) : List String :=
  (search_terms.foldr (fun t acc => pySplit (pyLower t) ++ acc) []).filter
    (fun k => containsSubStr k text)

/-- Loop of `SlackSearchSystem._find_keyword_matches`: walk the messages,
skipping empty or already-seen (by stripped lower-cased text) ones, and
keep those matching at least one keyword with initial score 0.
Only kept messages are added to the seen set, as in the source.
The Python `seen_messages` set is modelled as a list used only through
membership. -/
def find_keyword_matches_aux (search_terms : List String) :
    List Msg → List String → List SearchResult
  | [], _ => []
  | m :: ms, seen =>
    if pyLower (pyStrip m.text) = "" ∨ pyLower (pyStrip m.text) ∈ seen then
      find_keyword_matches_aux search_terms ms seen
    else
      if matched_keyword_list search_terms (pyLower (pyStrip m.text)) = [] then
        find_keyword_matches_aux search_terms ms seen
      else
        ⟨m, (matched_keyword_list search_terms (pyLower (pyStrip m.text))).toFinset, 0⟩ ::
          find_keyword_matches_aux search_terms ms
            (pyLower (pyStrip m.text) :: seen)

/-- `SlackSearchSystem._find_keyword_matches`. -/
def find_keyword_matches (messages : List Msg) (search_terms : List String) :
    List SearchResult :=
  find_keyword_matches_aux search_terms messages []

/-- Scoring step inside `SlackSearchSystem._evaluate_relevance`:
`score = keyword_score * 0.6`, plus `0.4` when some query word occurs in
the text, clamped by `min score 1.0`.  `qws` is the set of query words
(denominator), `qwl` the query-word list iterated by `any(...)`. -/
def score_of (qws : Finset String) (qwl : List String) (r : SearchResult) : SearchResult :=
  { r with
    relevance_score :=
      min
        (if qwl.any (fun w => containsSubStr w (pyLower (pyStrip r.message.text))) then
          ((r.matched_keywords.card : ℚ) / (qws.card : ℚ)) * (6 / 10) + 4 / 10
        else
          ((r.matched_keywords.card : ℚ) / (qws.card : ℚ)) * (6 / 10))
        1 }

/-- `SlackSearchSystem._evaluate_relevance`.  The source divides by
`len(query_words)` without a guard: when the query-word set is empty and
there is at least one result, Python raises `ZeroDivisionError`,
modelled as `none`. -/
def evaluate_relevance (results : List SearchResult) (original_query : String) :
    Option (List SearchResult) :=
  if results ≠ [] ∧ pySplit (pyLower original_query) = [] then none
  else
    some (results.map
      (score_of (pySplit (pyLower original_query)).toFinset (pySplit (pyLower original_query))))

/-- Sort key of `SlackSearchSystem._filter_results`: descending
lexicographic on (matched-keyword count, relevance score), as produced by
Python's stable `sorted(..., key=(len(mk), score), reverse=True)`. -/
def sort_key_ge (a b : SearchResult) : Bool :=
  decide (b.matched_keywords.card < a.matched_keywords.card) ||
    (decide (a.matched_keywords.card = b.matched_keywords.card) &&
      decide (b.relevance_score ≤ a.relevance_score))

/-- `SlackSearchSystem._filter_results`: stable sort descending by
(matched-keyword count, relevance score), then drop entries below the
minimum relevance score. -/
def filter_results (min_relevance_score : ℚ) (results : List SearchResult) :
    List SearchResult :=
  (results.mergeSort sort_key_ge).filter
    (fun r => decide (min_relevance_score ≤ r.relevance_score))

/-- `SlackSearchSystem.search_messages` after the Slack fetch: keyword
matching, relevance evaluation (whose `ZeroDivisionError` is caught by the
surrounding `try`, yielding `[]`), ranking and filtering.  When `query` is
falsy the first search term is used, as in `query or search_terms[0]`. -/
def search_messages (messages : List Msg) (search_terms : List String)
    (query : String) (min_relevance_score : ℚ) : List Msg :=
  if find_keyword_matches messages search_terms = [] then []
  else
    match
      evaluate_relevance (find_keyword_matches messages search_terms)
        (if query = "" then search_terms.headD "" else query)
    with
    | none => []
    | some scored => (filter_results min_relevance_score scored).map SearchResult.message

/-- Outcome of the model call plus response parsing in
`QuestionSplitter.split_questions`: the `generate_content_async` call may
raise, the regex `\[.*\]` may find no array, `json.loads` may raise, or a
list of strings is parsed. -/
inductive ModelParse where
  | callFailed
  | noArrayFound
  | parseFailed
  | parsed (questions : List String)
deriving DecidableEq

/-- `QuestionSplitter.split_questions` (`question_splitter.py`): any
exception or missing array yields `[query]`; a parsed single-element list
differing from the query yields `[query]`; otherwise the parsed list is
returned verbatim. -/
def split_questions (query : String) (response : ModelParse) : List String :=
  match response with
  | ModelParse.callFailed => [query]
  | ModelParse.noArrayFound => [query]
  | ModelParse.parseFailed => [query]
  | ModelParse.parsed questions =>
    if questions.length = 1 ∧ questions.headD "" ≠ query then [query] else questions

/-- Stop words of `SearchKeywordGenerator` (`search_keyword_generator.py`). -/
def stop_words : Finset String :=
  {"する", "てる", "いる", "ある", "なる",
   "どこ", "なに", "だれ", "いつ", "どう",
   "こと", "もの", "ところ", "とき", "ため",
   "どれ", "これ", "それ", "あれ", "この",
   "その", "あの", "どの",
   "お願い", "ください", "おねがい", "です", "ます",
   "か", "の", "は"}

/-- Synonym dictionary of `SearchKeywordGenerator` (each value set listed
in source order). -/
def synonyms : List (String × List String) :=
  [("新入社員", ["新人", "フレッシャーズ"]),
   ("スケジュール", ["日程", "予定", "計画", "スケ"]),
   ("会議", ["ミーティング", "打ち合わせ", "打合せ"]),
   ("報告", ["レポート", "報告書", "レポーティング"]),
   ("資料", ["ドキュメント", "書類", "データ"]),
   ("売上", ["売り上げ", "売上高", "売上金額"]),
   ("研修", ["トレーニング", "講習", "研修会"]),
   ("キャンセル", ["解約", "返品", "取消"]),
   ("顧客", ["取引先", "お客様", "クライアント", "得意先"]),
   ("商品", ["製品", "品物", "アイテム"]),
   ("納期", ["出荷日", "配送日", "出荷予定日"]),
   ("在庫", ["在庫数", "ストック", "在庫状況"]),
   ("担当者", ["担当", "責任者", "PIC"])]

/-- Characters matched by the word regex
`[一-龯々ぁ-んァ-ン\w]+` of `SearchKeywordGenerator._extract_words`
(`\w` modelled by its ASCII part; the code base's queries contain no other
word characters). -/
def isWordChar (c : Char) : Bool :=
  c.isAlphanum || c == '_' || c == '々' ||
    (0x3041 ≤ c.toNat && c.toNat ≤ 0x3093) ||
    (0x30A1 ≤ c.toNat && c.toNat ≤ 0x30F3) ||
    (0x4E00 ≤ c.toNat && c.toNat ≤ 0x9FAF)

/-- Helper: maximal runs of word characters (`re.findall` on the word
regex). -/
def wordRunsAux : List Char → List Char → List (List Char)
  | [], acc => if acc.isEmpty then [] else [acc.reverse]
  | c :: cs, acc =>
    if isWordChar c then wordRunsAux cs (c :: acc)
    else if acc.isEmpty then wordRunsAux cs [] else acc.reverse :: wordRunsAux cs []

/-- `re.findall(r'[一-龯々ぁ-んァ-ン\w]+', text)`. -/
def findWordRuns (text : String) : List String :=
  (wordRunsAux text.toList []).map List.asString

/-- Insert a string into a duplicate-free list unless already present
(ordered model of a Python `set.add`). -/
def insertNew (w : String) (l : List String) : List String :=
  if w ∈ l then l else l ++ [w]

/-- `set.update`: insert each element in turn. -/
def insertAllNew (ws l : List String) : List String :=
  ws.foldl (fun acc w => insertNew w acc) l

/-- `SearchKeywordGenerator._extract_words`: word runs minus stop words,
expanded through the synonym dictionary.  Python materialises a `set`
whose iteration order is unspecified; the model keeps insertion order. -/
def extract_words (text : String) : List String :=
  ((findWordRuns text).filter (fun w => !decide (pyLower w ∈ stop_words))).foldl
    (fun acc w =>
      synonyms.foldl
        (fun acc2 ks =>
          if w ∈ ks.2 ∨ w = ks.1 then insertAllNew (ks.1 :: ks.2) acc2 else acc2)
        acc)
    (insertAllNew
      ((findWordRuns text).filter (fun w => !decide (pyLower w ∈ stop_words))) [])

/-- Append a keyword unless it was already used
(`used_combinations` bookkeeping of
`SearchKeywordGenerator._generate_keyword_combinations`). -/
def addIfNew (kw : String) (st : List String × Finset String) : List String × Finset String :=
  if kw ∈ st.2 then st else (st.1 ++ [kw], insert kw st.2)

/-- Inner loop over `words[i+1:]`: both orderings of the pair are added. -/
def gkcInner (word1 : String) : List String → List String × Finset String → List String × Finset String
  | [], st => st
  | w2 :: rest, st =>
    gkcInner word1 rest (addIfNew (w2 ++ " " ++ word1) (addIfNew (word1 ++ " " ++ w2) st))

/-- Outer loop of `_generate_keyword_combinations`. -/
def gkcOuter : List String → List String × Finset String → List String × Finset String
  | [], st => st
  | w1 :: rest, st => gkcOuter rest (gkcInner w1 rest (addIfNew w1 st))

/-- `SearchKeywordGenerator._generate_keyword_combinations`. -/
def generate_keyword_combinations (words : List String) : List String :=
  (gkcOuter words ([], ∅)).1

/-- Outcome of the model call plus parsing in the current
`SearchKeywordGenerator.generate_search_terms`: the regex `\[.*?\]` may
find no JSON (an ordinary `return []`, not an exception), any exception
(model call or `json.loads`) is caught, or a keyword list is parsed. -/
inductive KwResponse where
  | callFailed
  | noJsonFound
  | parsed (keywords : List String)
deriving DecidableEq

/-- `SearchKeywordGenerator.generate_search_terms`
(`search_keyword_generator.py`, the generator wired into the live
pipeline): no JSON found yields `[]`; an exception falls back to the
local combinatorial generator; a parsed list is returned verbatim
(a parsed empty list is returned as `[]` by the `if not keywords`
branch). -/
def generate_search_terms (query : String) (response : KwResponse) : List String :=
  match response with
  | KwResponse.noJsonFound => []
  | KwResponse.callFailed => generate_keyword_combinations (extract_words query)
  | KwResponse.parsed keywords => keywords

/-- Outcome type for the old generator
(`src/old/search_pipeline.py`): there a missing array raises
`ValueError`, caught by the same handler as model-call and `json.loads`
failures. -/
inductive OldKwResponse where
  | callFailed
  | noArrayFound
  | parseFailed
  | parsed (search_terms : List String)
deriving DecidableEq

/-- Length comparison used by `search_terms.sort(key=len)`. -/
def lenLE (a b : String) : Bool :=
  decide (a.length ≤ b.length)

/-- `SearchKeywordGenerator.generate_search_terms` of
`src/old/search_pipeline.py`: on success the terms are stripped, empties
dropped, deduplicated via `set`, and stably sorted by ascending length;
every failure mode yields `[query]`. -/
def old_generate_search_terms (query : String) (response : OldKwResponse) : List String :=
  match response with
  | OldKwResponse.callFailed => [query]
  | OldKwResponse.noArrayFound => [query]
  | OldKwResponse.parseFailed => [query]
  | OldKwResponse.parsed search_terms =>
    (((search_terms.map pyStrip).filter (fun t => t != "")).dedup).mergeSort lenLE

/-- Deduplication step of `SearchRetryStrategy.execute_search_with_retry`
(lines 55–63): keep messages whose stripped text is non-empty and not in
the running seen set, extending the seen set as it goes. -/
def dedupNew : List Msg → List String → List Msg × List String
  | [], seen => ([], seen)
  | m :: ms, seen =>
    if pyStrip m.text = "" ∨ pyStrip m.text ∈ seen then dedupNew ms seen
    else
      (m :: (dedupNew ms (pyStrip m.text :: seen)).1,
        (dedupNew ms (pyStrip m.text :: seen)).2)

/-- The retry loop of `SearchRetryStrategy.execute_search_with_retry`.
`gen rc` models `keyword_generator.generate_search_terms(query, rc)` and
`sf terms` models `search_func(channel_id, terms)` for the fixed query and
channel of one call.  `fuel` is `max_retries - retry_count`.  The result
carries the accumulated messages together with the number of
keyword-generation calls and of retrieval calls performed. -/
def retryAux (gen : Nat → List String) (sf : List String → List Msg) (minR : Nat) :
    Nat → Nat → List Msg → List String → List Msg × Nat × Nat
  | 0, _, acc, _ => (acc, 0, 0)
  | fuel + 1, rc, acc, seen =>
    if gen rc = [] then (acc, 1, 0)
    else
      if minR ≤ (acc ++ (dedupNew (sf (gen rc)) seen).1).length then
        (acc ++ (dedupNew (sf (gen rc)) seen).1, 1, 1)
      else
        match
          retryAux gen sf minR fuel (rc + 1) (acc ++ (dedupNew (sf (gen rc)) seen).1)
            (dedupNew (sf (gen rc)) seen).2
        with
        | (res, g, s) => (res, g + 1, s + 1)

/-- `SearchRetryStrategy.execute_search_with_retry` with `max_retries`
attempts and minimum expected result count `minR` (defaults 3 and 3),
starting from empty accumulator and seen set. -/
def executeSearchWithRetry (gen : Nat → List String) (sf : List String → List Msg)
    (maxRetries minR : Nat) : List Msg × Nat × Nat :=
  retryAux gen sf minR maxRetries 0 [] []

/-- `AnswerQuality` from `answer_generator.py`: four boolean flags and a
confidence score in `[0,1]` (modelled as `ℚ`). -/
structure AnswerQuality where
  has_direct_answer : Bool := false
  has_specific_info : Bool := false
  has_time_info : Bool := false
  is_relevant : Bool := false
  confidence_score : ℚ := 0
deriving DecidableEq

/-- `AnswerQuality()` — the all-default quality object. -/
def emptyQuality : AnswerQuality := ⟨false, false, false, false, 0⟩

/-- The fixed quality tuple attached to the fallback answer
(`generate_answer`, lines 125–131). -/
def fallbackQuality : AnswerQuality := ⟨true, true, true, true, 6 / 10⟩

/-- `AnswerGenerator._generate_fallback_answer`: synthesised from the
first (most recent) message's timestamp and stripped text.  `tf` models
`_extract_time_info` — the wall-clock/locale-dependent rendering of a
`ts` value via `datetime.fromtimestamp(...).strftime(...)`. -/
def generate_fallback_answer (tf : String → String) (messages : List Msg) : String :=
  "[送信] " ++ tf (messages.headD ⟨"", ""⟩).ts ++ "\n\n内容：\n" ++
    pyStrip (messages.headD ⟨"", ""⟩).text ++
    "\n\n補足：\nこの情報は、入力された質問に最も関連性の高いものとして検出されました。"

/-- One iteration of the generation loop of
`AnswerGenerator.generate_answer` as seen from outside: `none` models an
exception in the model call (caught, `continue`); `some (raw, q)` models a
raw response text and the quality object returned by
`_evaluate_answer_quality` for it (that helper never raises — its own
failures already yield `AnswerQuality()`). -/
def genLoop : List (Option (String × AnswerQuality)) → String × AnswerQuality →
    (String × AnswerQuality) × Nat
  | [], best => (best, 0)
  | none :: rest, best =>
    match genLoop rest best with
    | (b, n) => (b, n + 1)
  | some (raw, q) :: rest, best =>
    if (8 : ℚ) / 10 ≤ q.confidence_score then
      ((if best.2.confidence_score < q.confidence_score then (pyStrip raw, q) else best), 1)
    else
      match
        genLoop rest
          (if best.2.confidence_score < q.confidence_score then (pyStrip raw, q) else best)
      with
      | (b, n) => (b, n + 1)

/-- Association lookup in the answer cache (`self.answer_cache`). -/
def cacheLookup (key : String) : List (String × String × AnswerQuality) →
    Option (String × AnswerQuality)
  | [] => none
  | e :: rest => if e.1 = key then some e.2 else cacheLookup key rest

/-- `best_answer` after the fallback guard: the loop's best answer, or the
synthesized fallback when it is empty. -/
def bestAnswerOf (tf : String → String) (messages : List Msg)
    (best : String × AnswerQuality) : String :=
  if best.1 = "" then generate_fallback_answer tf messages else best.1

/-- `best_quality` after the fallback guard. -/
def bestQualityOf (best : String × AnswerQuality) : AnswerQuality :=
  if best.1 = "" then fallbackQuality else best.2

/-- `if best_answer: self.answer_cache[cache_key] = (best_answer,
best_quality)` — the cache store step. -/
def cacheUpdate (key : String) (cache : List (String × String × AnswerQuality))
    (ans : String) (qual : AnswerQuality) : List (String × String × AnswerQuality) :=
  if ans = "" then cache else (key, ans, qual) :: cache

/-- Result of one `generate_answer` call: the returned pair, the cache
state afterwards, and how many model-generation attempts were executed
(0 on a cache hit or empty input). -/
structure GenResult where
  answer : String
  quality : AnswerQuality
  cache : List (String × String × AnswerQuality)
  model_calls : Nat
deriving DecidableEq

/-- `AnswerGenerator.generate_answer`: empty input short-circuits with the
fixed "no information" answer; otherwise the cache keyed by
`query ++ "_" ++ ts(first message)` is consulted, and on a miss the
generation loop runs, the fallback guard applies, and a non-empty answer
is stored. -/
def generate_answer (tf : String → String) (cache : List (String × String × AnswerQuality))
    (query : String) (messages : List Msg)
    (attempts : List (Option (String × AnswerQuality))) : GenResult :=
  if messages = [] then
    ⟨"申し訳ありません。関連する情報が見つかりませんでした。", emptyQuality, cache, 0⟩
  else
    match cacheLookup (query ++ "_" ++ (messages.headD ⟨"", ""⟩).ts) cache with
    | some aq => ⟨aq.1, aq.2, cache, 0⟩
    | none =>
      ⟨bestAnswerOf tf messages (genLoop attempts ("", emptyQuality)).1,
        bestQualityOf (genLoop attempts ("", emptyQuality)).1,
        cacheUpdate (query ++ "_" ++ (messages.headD ⟨"", ""⟩).ts) cache
          (bestAnswerOf tf messages (genLoop attempts ("", emptyQuality)).1)
          (bestQualityOf (genLoop attempts ("", emptyQuality)).1),
        (genLoop attempts ("", emptyQuality)).2⟩

/-- A calendar date, as manipulated by `DateExtractor`
(`src/old/search_pipeline.py`).  `datetime.now()` is passed in as the
`today` parameter of the functions below. -/
structure Date where
  year : Nat
  month : Nat
  day : Nat
deriving DecidableEq

/-- Gregorian leap-year rule (as implemented by `datetime`/`calendar`). -/
def isLeapYear (y : Nat) : Bool :=
  (y % 4 == 0 && y % 100 != 0) || y % 400 == 0

/-- `calendar.monthrange(y, m)[1]` — days in a month. -/
def daysInMonth (y m : Nat) : Nat :=
  if m = 2 then (if isLeapYear y then 29 else 28)
  else if m = 4 ∨ m = 6 ∨ m = 9 ∨ m = 11 then 30
  else 31

/-- Validity of `datetime(year, month, day)` — the constructor raises
`ValueError` outside these bounds. -/
def validDate (y m d : Nat) : Bool :=
  decide (1 ≤ y) && decide (y ≤ 9999) && decide (1 ≤ m) && decide (m ≤ 12) &&
    decide (1 ≤ d) && decide (d ≤ daysInMonth y m)

/-- Zero-pad to two digits (`strftime` `%m`, `%d`). -/
def pad2 (n : Nat) : String :=
  if n < 10 then "0" ++ toString n else toString n

/-- Zero-pad to four digits (`strftime` `%Y`). -/
def pad4 (n : Nat) : String :=
  if n < 10 then "000" ++ toString n
  else if n < 100 then "00" ++ toString n
  else if n < 1000 then "0" ++ toString n
  else toString n

/-- `strftime('%Y-%m-%d')`. -/
def isoDate (d : Date) : String :=
  pad4 d.year ++ "-" ++ pad2 d.month ++ "-" ++ pad2 d.day

/-- `date - timedelta(days=1)`. -/
def predDay (d : Date) : Date :=
  if 1 < d.day then ⟨d.year, d.month, d.day - 1⟩
  else if 1 < d.month then ⟨d.year, d.month - 1, daysInMonth d.year (d.month - 1)⟩
  else ⟨d.year - 1, 12, 31⟩

/-- `date + timedelta(days=1)`. -/
def succDay (d : Date) : Date :=
  if d.day < daysInMonth d.year d.month then ⟨d.year, d.month, d.day + 1⟩
  else if d.month < 12 then ⟨d.year, d.month + 1, 1⟩
  else ⟨d.year + 1, 1, 1⟩

/-- `date - timedelta(days=n)`. -/
def subDays (d : Date) : Nat → Date
  | 0 => d
  | n + 1 => subDays (predDay d) n

/-- `date.replace(day=1)`. -/
def withDay1 (d : Date) : Date :=
  ⟨d.year, d.month, 1⟩

/-- `DateExtractor._get_last_month_range`. -/
def get_last_month_range (today : Date) : String × String :=
  (isoDate (withDay1 (predDay (withDay1 today))), isoDate (predDay (withDay1 today)))

/-- `DateExtractor._get_two_months_ago_range`. -/
def get_two_months_ago_range (today : Date) : String × String :=
  (isoDate (withDay1 (subDays (withDay1 today) 32)),
    isoDate (predDay (withDay1 (predDay (withDay1 today)))))

/-- `DateExtractor._get_current_month_range`. -/
def get_current_month_range (today : Date) : String × String :=
  (isoDate (withDay1 today),
    isoDate ⟨today.year, today.month, daysInMonth today.year today.month⟩)

/-- `DateExtractor._get_next_month_range` (including the source's
year-preserving `replace(month=month % 12 + 1)` when computing the last
day). -/
def get_next_month_range (today : Date) : String × String :=
  (isoDate (if today.month = 12 then ⟨today.year + 1, 1, 1⟩
    else ⟨today.year, today.month + 1, 1⟩),
   isoDate (predDay
    ⟨(if today.month = 12 then (⟨today.year + 1, 1, 1⟩ : Date)
      else ⟨today.year, today.month + 1, 1⟩).year,
     (if today.month = 12 then (⟨today.year + 1, 1, 1⟩ : Date)
      else ⟨today.year, today.month + 1, 1⟩).month % 12 + 1, 1⟩))

/-- `DateExtractor._get_yesterday_range`. -/
def get_yesterday_range (today : Date) : String × String :=
  (isoDate (predDay today), isoDate (predDay today))

/-- `DateExtractor._get_today_range`. -/
def get_today_range (today : Date) : String × String :=
  (isoDate today, isoDate today)

/-- `DateExtractor._get_tomorrow_range`. -/
def get_tomorrow_range (today : Date) : String × String :=
  (isoDate (succDay today), isoDate (succDay today))

/-- `self.relative_date_patterns` in source (insertion) order, each paired
with its handler's value for `today`. -/
def relative_date_handlers (today : Date) : List (String × String × String) :=
  [("先月", get_last_month_range today),
   ("先々月", get_two_months_ago_range today),
   ("今月", get_current_month_range today),
   ("来月", get_next_month_range today),
   ("昨日", get_yesterday_range today),
   ("今日", get_today_range today),
   ("明日", get_tomorrow_range today)]

/-- First relative pattern occurring in the query (`re.search` on the
literal patterns is a substring test). -/
def findRelative (query : String) : List (String × String × String) →
    Option (String × String)
  | [] => none
  | e :: rest => if containsSubStr e.1 query then some e.2 else findRelative query rest

/-- Take exactly `n` leading digits. -/
def matchNDigits (n : Nat) (cs : List Char) : Option (List Char × List Char) :=
  if (cs.take n).length = n ∧ (cs.take n).all Char.isDigit then
    some (cs.take n, cs.drop n)
  else none

/-- Digit characters to a number. -/
def digitsToNat (cs : List Char) : Nat :=
  cs.foldl (fun n c => n * 10 + (c.toNat - 48)) 0

/-- `\d{1,2}日` with `\d{1,2}` trying one digit (the backtracked case). -/
def dayAt1 (cs : List Char) : Option Nat :=
  match matchNDigits 1 cs with
  | some (ds, '日' :: _) => some (digitsToNat ds)
  | _ => none

/-- `\d{1,2}日`, greedy: two digits first, then one. -/
def dayAt (cs : List Char) : Option Nat :=
  match matchNDigits 2 cs with
  | some (ds, '日' :: _) => some (digitsToNat ds)
  | _ => dayAt1 cs

/-- `\d{k}月\d{1,2}日` for a fixed month-digit count `k`. -/
def monthDayAtK (k : Nat) (cs : List Char) : Option (Nat × Nat) :=
  match matchNDigits k cs with
  | some (ds, '月' :: rest) => (dayAt rest).map (fun d => (digitsToNat ds, d))
  | _ => none

/-- `\d{1,2}月\d{1,2}日`, greedy with backtracking on the month width. -/
def monthDayAt (cs : List Char) : Option (Nat × Nat) :=
  match monthDayAtK 2 cs with
  | some md => some md
  | none => monthDayAtK 1 cs

/-- `(\d{4}年)?` followed by month/day at one position: the optional year
group is tried greedily, falling back to a match without it. -/
def specificAt (cs : List Char) : Option (Option Nat × Nat × Nat) :=
  match matchNDigits 4 cs with
  | some (ds, '年' :: rest) =>
    match monthDayAt rest with
    | some md => some (some (digitsToNat ds), md.1, md.2)
    | none => (monthDayAt cs).map (fun md => (none, md.1, md.2))
  | _ => (monthDayAt cs).map (fun md => (none, md.1, md.2))

/-- `re.search(r'(\d{4}年)?(\d{1,2})月(\d{1,2})日', query)` — leftmost
match of the specific-date pattern. -/
def scanSpecific : List Char → Option (Option Nat × Nat × Nat)
  | [] => none
  | c :: cs =>
    match specificAt (c :: cs) with
    | some r => some r
    | none => scanSpecific cs

/-- `DateExtractor.extract_date_range`: relative patterns first (in table
order), then the specific-date pattern with the missing year defaulting to
the current year; an invalid calendar date yields `(None, None)`, as does
no match at all. -/
def extract_date_range (today : Date) (query : String) :
    Option String × Option String :=
  match findRelative query (relative_date_handlers today) with
  | some se => (some se.1, some se.2)
  | none =>
    match scanSpecific query.toList with
    | some ymd =>
      if validDate (ymd.1.getD today.year) ymd.2.1 ymd.2.2 then
        (some (isoDate ⟨ymd.1.getD today.year, ymd.2.1, ymd.2.2⟩),
          some (isoDate ⟨ymd.1.getD today.year, ymd.2.1, ymd.2.2⟩))
      else (none, none)
    | none => (none, none)

/-! ## Helper lemmas about the retrieval stage -/

/-- Every result emitted by the keyword-matching loop carries a non-empty
matched-keyword set and the initial relevance score 0. -/
theorem find_keyword_matches_aux_mem (search_terms : List String) :
    ∀ (messages : List Msg) (seen : List String) (r : SearchResult),
      r ∈ find_keyword_matches_aux search_terms messages seen →
      r.matched_keywords ≠ ∅ ∧ r.relevance_score = 0 := by
  intro messages
  induction messages with
  | nil => intro seen r hr; simp [find_keyword_matches_aux] at hr
  | cons m ms ih =>
    intro seen r hr
    simp only [find_keyword_matches_aux] at hr
    by_cases h1 : pyLower (pyStrip m.text) = "" ∨ pyLower (pyStrip m.text) ∈ seen
    · rw [if_pos h1] at hr
      exact ih seen r hr
    · rw [if_neg h1] at hr
      by_cases h2 : matched_keyword_list search_terms (pyLower (pyStrip m.text)) = []
      · rw [if_pos h2] at hr
        exact ih seen r hr
      · rw [if_neg h2] at hr
        rcases List.mem_cons.mp hr with hr | hr
        · subst hr
          refine ⟨?_, rfl⟩
          simpa [List.toFinset_eq_empty_iff] using h2
        · exact ih _ r hr

/-- The relevance score produced by the scoring step lies in `[0, 1]` and
leaves the message and matched keywords untouched. -/
theorem score_of_spec (qws : Finset String) (qwl : List String) (r : SearchResult) :
    0 ≤ (score_of qws qwl r).relevance_score ∧
      (score_of qws qwl r).relevance_score ≤ 1 ∧
      (score_of qws qwl r).matched_keywords = r.matched_keywords ∧
      (score_of qws qwl r).message = r.message := by
  refine ⟨?_, ?_, rfl, rfl⟩
  · simp only [score_of]
    have hbase : (0:ℚ) ≤ ((r.matched_keywords.card : ℚ) / (qws.card : ℚ)) * (6 / 10) := by
      positivity
    refine le_min ?_ (by norm_num)
    split_ifs with h
    · linarith
    · exact hbase
  · simp only [score_of]
    exact min_le_right _ _

/-- C1: for every candidate with a non-empty matched-keyword set and
every query with a non-empty lower-cased whitespace token set, the score
assigned by `_evaluate_relevance` equals
`min (0.6 * |matched| / |query tokens| + (0.4 if some query token occurs
in the lower-cased stripped message text else 0)) 1`. -/
theorem relevance_score_matches_spec_formula
    (results : List SearchResult) (query : String) (out : List SearchResult)
    (r : SearchResult)
    (hq : (pySplit (pyLower query)).toFinset ≠ ∅)
    (heval : evaluate_relevance results query = some out)
    (hr : r ∈ out)
    (_hmk : r.matched_keywords ≠ ∅) :
    r.relevance_score =
      min ((6 / 10) * ((r.matched_keywords.card : ℚ) /
            (((pySplit (pyLower query)).toFinset.card : ℚ))) +
          (if (pySplit (pyLower query)).any
              (fun w => containsSubStr w (pyLower (pyStrip r.message.text))) then
            (4 : ℚ) / 10
          else 0))
        1 := by
  have hq' : pySplit (pyLower query) ≠ [] := by
    simpa [List.toFinset_eq_empty_iff] using hq
  unfold evaluate_relevance at heval
  rw [if_neg (by simp [hq'])] at heval
  obtain ⟨r0, _hr0, rfl⟩ := List.mem_map.mp (by
    have := Option.some.inj heval
    rw [← this] at hr
    exact hr)
  simp only [score_of]
  split_ifs with h
  · congr 1
    ring
  · congr 1
    ring

/-- C2 counterexample: with a non-empty candidate list and a query whose
token set is empty, `_evaluate_relevance` does not treat the keyword
score as 0 — it fails (the modelled `ZeroDivisionError`, `none`). -/
theorem relevance_empty_query_no_guard_counterexample :
    evaluate_relevance [⟨⟨"1", "hello"⟩, {"hel"}, 0⟩] "" = none := by
  decide

/-- C2 amended: when the query token set is empty and at least one
candidate exists, `_evaluate_relevance` raises `ZeroDivisionError`
(modelled `none`) rather than guarding the division; the surrounding
`try` in `search_messages` catches it, so the search returns `[]`. -/
theorem relevance_empty_query_raises_and_search_returns_empty :
    (∀ (results : List SearchResult) (query : String),
      results ≠ [] → pySplit (pyLower query) = [] →
      evaluate_relevance results query = none) ∧
    (∀ (messages : List Msg) (search_terms : List String) (query : String)
        (min_relevance_score : ℚ),
      pySplit (pyLower (if query = "" then search_terms.headD "" else query)) = [] →
      search_messages messages search_terms query min_relevance_score = []) := by
  constructor
  · intro results query hres hq
    unfold evaluate_relevance
    rw [if_pos ⟨hres, hq⟩]
  · intro messages search_terms query min_relevance_score hq
    unfold search_messages
    by_cases hk : find_keyword_matches messages search_terms = []
    · rw [if_pos hk]
    · rw [if_neg hk]
      have : evaluate_relevance (find_keyword_matches messages search_terms)
          (if query = "" then search_terms.headD "" else query) = none := by
        unfold evaluate_relevance
        rw [if_pos ⟨hk, hq⟩]
      rw [this]

/-- The descending (count, score) comparison is transitive. -/
theorem sort_key_ge_trans (a b c : SearchResult)
    (hab : sort_key_ge a b = true) (hbc : sort_key_ge b c = true) :
    sort_key_ge a c = true := by
  simp only [sort_key_ge, Bool.or_eq_true, Bool.and_eq_true, decide_eq_true_eq] at *
  rcases hab with h1 | ⟨h1, h1'⟩ <;> rcases hbc with h2 | ⟨h2, h2'⟩
  · exact Or.inl (h2.trans h1)
  · exact Or.inl (h2 ▸ h1)
  · exact Or.inl (lt_of_lt_of_eq h2 h1.symm)
  · exact Or.inr ⟨h1.trans h2, h2'.trans h1'⟩

/-- The descending (count, score) comparison is total. -/
theorem sort_key_ge_total (a b : SearchResult) :
    (sort_key_ge a b || sort_key_ge b a) = true := by
  simp only [sort_key_ge, Bool.or_eq_true, Bool.and_eq_true, decide_eq_true_eq]
  rcases Nat.lt_trichotomy a.matched_keywords.card b.matched_keywords.card with h | h | h
  · exact Or.inr (Or.inl h)
  · rcases le_total a.relevance_score b.relevance_score with h' | h'
    · exact Or.inr (Or.inr ⟨h.symm, h'⟩)
    · exact Or.inl (Or.inr ⟨h, h'⟩)
  · exact Or.inl (Or.inl h)

/-- C8: every result scored by the retrieval pipeline
(`_find_keyword_matches` followed by `_evaluate_relevance`) has a
non-empty matched-keyword set and a relevance score in `[0, 1]`; and
`_filter_results` keeps only entries whose score is at least the minimum
relevance threshold, in descending (matched-keyword count, relevance
score) order. -/
theorem search_result_invariants :
    (∀ (messages : List Msg) (search_terms : List String) (query : String)
        (out : List SearchResult) (r : SearchResult),
      evaluate_relevance (find_keyword_matches messages search_terms) query = some out →
      r ∈ out →
      r.matched_keywords ≠ ∅ ∧ 0 ≤ r.relevance_score ∧ r.relevance_score ≤ 1) ∧
    (∀ (min_relevance_score : ℚ) (results : List SearchResult),
      (∀ r ∈ filter_results min_relevance_score results,
        min_relevance_score ≤ r.relevance_score) ∧
      (filter_results min_relevance_score results).Pairwise (fun a b =>
        b.matched_keywords.card < a.matched_keywords.card ∨
          (a.matched_keywords.card = b.matched_keywords.card ∧
            b.relevance_score ≤ a.relevance_score))) := by
  constructor
  · intro messages search_terms query out r heval hr
    unfold evaluate_relevance at heval
    by_cases hcond : find_keyword_matches messages search_terms ≠ [] ∧
        pySplit (pyLower query) = []
    · rw [if_pos hcond] at heval
      exact absurd heval (by simp)
    · rw [if_neg hcond] at heval
      obtain ⟨r0, hr0, rfl⟩ := List.mem_map.mp (by
        have := Option.some.inj heval
        rw [← this] at hr
        exact hr)
      obtain ⟨hmk, _⟩ := find_keyword_matches_aux_mem search_terms messages [] r0 hr0
      obtain ⟨hs0, hs1, hkeep, _⟩ := score_of_spec
        (pySplit (pyLower query)).toFinset (pySplit (pyLower query)) r0
      exact ⟨by rw [hkeep]; exact hmk, hs0, hs1⟩
  · intro min_relevance_score results
    constructor
    · intro r hr
      have := (List.mem_filter.mp hr).2
      exact of_decide_eq_true this
    · have hsorted := List.sorted_mergeSort sort_key_ge_trans sort_key_ge_total results
      have hsub := List.filter_sublist
        (p := fun r => decide (min_relevance_score ≤ r.relevance_score))
        (results.mergeSort sort_key_ge)
      have := List.Pairwise.sublist hsub hsorted
      refine this.imp ?_
      intro a b hab
      simp only [sort_key_ge, Bool.or_eq_true, Bool.and_eq_true, decide_eq_true_eq] at hab
      exact hab

/-- C3 counterexample: when the model's response parses to the empty
array, `split_questions` returns the empty list, not a non-empty one
(and in particular not `[query]`). -/
theorem split_questions_empty_parse_counterexample :
    split_questions "質問" (ModelParse.parsed []) = [] := by
  decide

/-- C3 amended: `split_questions` yields `[query]` on a failed model
call, a missing array literal, a failed parse, and on a parsed
single-element list differing from the query; otherwise it returns the
parsed list verbatim, so the result is empty exactly when the model's
parsed array is empty. -/
theorem split_questions_fallback_amended (query : String) (response : ModelParse) :
    (split_questions query response = [] ↔ response = ModelParse.parsed []) ∧
    ((response = ModelParse.callFailed ∨ response = ModelParse.noArrayFound ∨
        response = ModelParse.parseFailed) →
      split_questions query response = [query]) ∧
    (∀ qs, response = ModelParse.parsed qs → qs.length = 1 → qs.headD "" ≠ query →
      split_questions query response = [query]) := by
  refine ⟨?_, ?_, ?_⟩
  · cases response with
    | callFailed => simp [split_questions]
    | noArrayFound => simp [split_questions]
    | parseFailed => simp [split_questions]
    | parsed qs =>
      by_cases h : qs.length = 1 ∧ qs.headD "" ≠ query
      · rw [split_questions, if_pos h]
        constructor
        · intro hc; exact absurd hc (by simp)
        · intro hc
          obtain rfl : qs = [] := by simpa using hc
          simp at h
      · rw [split_questions, if_neg h]
        constructor
        · intro hc; subst hc; rfl
        · intro hc; simpa using hc
  · intro h
    rcases h with h | h | h <;> subst h <;> rfl
  · intro qs hres hlen hhead
    subst hres
    rw [split_questions, if_pos ⟨hlen, hhead⟩]

/-- C3 witness. -/
theorem split_questions_fallback_amended_witness :
    split_questions "進捗を教えて" ModelParse.callFailed = ["進捗を教えて"] :=
  (split_questions_fallback_amended "進捗を教えて" ModelParse.callFailed).2.1 (Or.inl rfl)

/-- C4 counterexample: the generator wired into the live pipeline
(`search_keyword_generator.py`) returns the parsed keyword list verbatim
— here one with a duplicate, so the output is not a list of unique
terms — and on a model-call failure it falls back to the local
combination generator instead of `[query]`. -/
theorem generate_search_terms_unsorted_counterexample :
    ¬ (generate_search_terms "a b" (KwResponse.parsed ["bb", "a", "bb"])).Nodup ∧
      generate_search_terms "a b" KwResponse.callFailed ≠ ["a b"] := by
  constructor
  · decide
  · decide

/-- Length ordering used by `sort(key=len)` is transitive. -/
theorem lenLE_trans (a b c : String)
    (hab : lenLE a b = true) (hbc : lenLE b c = true) : lenLE a c = true := by
  simp only [lenLE, decide_eq_true_eq] at *
  omega

/-- Length ordering used by `sort(key=len)` is total. -/
theorem lenLE_total (a b : String) : (lenLE a b || lenLE b a) = true := by
  simp only [lenLE, Bool.or_eq_true, decide_eq_true_eq]
  omega

/-- C4 amended: the old pipeline's generator
(`src/old/search_pipeline.py`) does satisfy the claim: its output is
always duplicate-free and sorted by ascending string length, and every
failure mode (model call, missing array, parse) yields exactly
`[query]`.  (The live generator's divergent behaviour is recorded in the
counterexample.) -/
theorem old_generate_search_terms_sorted_unique_amended
    (query : String) (response : OldKwResponse) :
    (old_generate_search_terms query response).Nodup ∧
    (old_generate_search_terms query response).Pairwise
      (fun a b => a.length ≤ b.length) ∧
    ((response = OldKwResponse.callFailed ∨ response = OldKwResponse.noArrayFound ∨
        response = OldKwResponse.parseFailed) →
      old_generate_search_terms query response = [query]) := by
  cases response with
  | callFailed =>
    exact ⟨by simp [old_generate_search_terms],
      by simp [old_generate_search_terms], fun _ => rfl⟩
  | noArrayFound =>
    exact ⟨by simp [old_generate_search_terms],
      by simp [old_generate_search_terms], fun _ => rfl⟩
  | parseFailed =>
    exact ⟨by simp [old_generate_search_terms],
      by simp [old_generate_search_terms], fun _ => rfl⟩
  | parsed search_terms =>
    refine ⟨?_, ?_, ?_⟩
    · have hperm := List.mergeSort_perm
        (((search_terms.map pyStrip).filter (fun t => t != "")).dedup) lenLE
      exact (hperm.nodup_iff).mpr (List.nodup_dedup _)
    · have hsorted := List.sorted_mergeSort lenLE_trans lenLE_total
        (((search_terms.map pyStrip).filter (fun t => t != "")).dedup)
      refine hsorted.imp ?_
      intro a b hab
      simpa [lenLE] using hab
    · intro h
      rcases h with h | h | h <;> exact absurd h (by simp)

/-- C4 witness. -/
theorem old_generate_search_terms_sorted_unique_amended_witness :
    old_generate_search_terms "研修" OldKwResponse.callFailed = ["研修"] :=
  (old_generate_search_terms_sorted_unique_amended "研修" OldKwResponse.callFailed).2.2
    (Or.inl rfl)

/-- C5: once the accumulated unique results reach `min_results`, the
retry loop stops: the attempt that reaches the threshold performs exactly
one keyword-generation call and one retrieval call and returns the
accumulated results (first conjunct, for an arbitrary loop state); in
particular, when the first attempt already yields at least `min_results`
unique messages, the whole strategy performs exactly one attempt even if
`max_retries` is larger (second conjunct). -/
theorem retry_stops_at_min_results :
    (∀ (gen : Nat → List String) (sf : List String → List Msg)
        (minR fuel rc : Nat) (acc : List Msg) (seen : List String),
      gen rc ≠ [] →
      minR ≤ (acc ++ (dedupNew (sf (gen rc)) seen).1).length →
      retryAux gen sf minR (fuel + 1) rc acc seen =
        (acc ++ (dedupNew (sf (gen rc)) seen).1, 1, 1)) ∧
    (∀ (gen : Nat → List String) (sf : List String → List Msg)
        (maxRetries minR : Nat),
      1 ≤ maxRetries →
      gen 0 ≠ [] →
      minR ≤ ((dedupNew (sf (gen 0)) []).1).length →
      executeSearchWithRetry gen sf maxRetries minR =
        ((dedupNew (sf (gen 0)) []).1, 1, 1)) := by
  have hstep : ∀ (gen : Nat → List String) (sf : List String → List Msg)
      (minR fuel rc : Nat) (acc : List Msg) (seen : List String),
      gen rc ≠ [] →
      minR ≤ (acc ++ (dedupNew (sf (gen rc)) seen).1).length →
      retryAux gen sf minR (fuel + 1) rc acc seen =
        (acc ++ (dedupNew (sf (gen rc)) seen).1, 1, 1) := by
    intro gen sf minR fuel rc acc seen hgen hmin
    simp only [retryAux]
    rw [if_neg hgen, if_pos hmin]
  refine ⟨hstep, ?_⟩
  intro gen sf maxRetries minR hmax hgen hmin
  obtain ⟨k, rfl⟩ : ∃ k, maxRetries = k + 1 := ⟨maxRetries - 1, by omega⟩
  unfold executeSearchWithRetry
  rw [hstep gen sf minR k 0 [] [] hgen (by simpa using hmin)]
  simp

/-- C5 witness: a first attempt yielding three distinct non-empty
messages stops after exactly one generation and one retrieval call. -/
theorem retry_stops_at_min_results_witness :
    executeSearchWithRetry (fun _ => ["k"])
        (fun _ => [⟨"1", "a"⟩, ⟨"2", "b"⟩, ⟨"3", "c"⟩]) 3 3 =
      ((dedupNew ((fun (_ : List String) => [(⟨"1", "a"⟩ : Msg), ⟨"2", "b"⟩, ⟨"3", "c"⟩])
          ((fun (_ : Nat) => ["k"]) 0)) []).1, 1, 1) :=
  retry_stops_at_min_results.2 (fun _ => ["k"])
    (fun _ => [⟨"1", "a"⟩, ⟨"2", "b"⟩, ⟨"3", "c"⟩]) 3 3 (by omega) (by decide) (by decide)

/-- Every message kept by the dedup step has non-empty stripped text not
previously seen. -/
theorem dedupNew_mem_strip :
    ∀ (cur : List Msg) (seen : List String) (m : Msg),
      m ∈ (dedupNew cur seen).1 →
      pyStrip m.text ≠ "" ∧ ¬ pyStrip m.text ∈ seen := by
  intro cur
  induction cur with
  | nil => intro seen m hm; simp [dedupNew] at hm
  | cons m0 ms ih =>
    intro seen m hm
    simp only [dedupNew] at hm
    by_cases h : pyStrip m0.text = "" ∨ pyStrip m0.text ∈ seen
    · rw [if_pos h] at hm
      exact ih seen m hm
    · rw [if_neg h] at hm
      push_neg at h
      rcases List.mem_cons.mp hm with hm | hm
      · subst hm
        exact ⟨h.1, h.2⟩
      · obtain ⟨hne, hnmem⟩ := ih _ m hm
        exact ⟨hne, fun hmem => hnmem (List.mem_cons_of_mem _ hmem)⟩

/-- The dedup step only grows the seen set. -/
theorem dedupNew_seen_mono :
    ∀ (cur : List Msg) (seen : List String) (t : String),
      t ∈ seen → t ∈ (dedupNew cur seen).2 := by
  intro cur
  induction cur with
  | nil => intro seen t ht; simpa [dedupNew] using ht
  | cons m0 ms ih =>
    intro seen t ht
    simp only [dedupNew]
    by_cases h : pyStrip m0.text = "" ∨ pyStrip m0.text ∈ seen
    · rw [if_pos h]
      exact ih seen t ht
    · rw [if_neg h]
      exact ih _ t (List.mem_cons_of_mem _ ht)

/-- Every kept message's stripped text lands in the updated seen set. -/
theorem dedupNew_mem_seen :
    ∀ (cur : List Msg) (seen : List String) (m : Msg),
      m ∈ (dedupNew cur seen).1 →
      pyStrip m.text ∈ (dedupNew cur seen).2 := by
  intro cur
  induction cur with
  | nil => intro seen m hm; simp [dedupNew] at hm
  | cons m0 ms ih =>
    intro seen m hm
    simp only [dedupNew] at hm ⊢
    by_cases h : pyStrip m0.text = "" ∨ pyStrip m0.text ∈ seen
    · rw [if_pos h] at hm ⊢
      exact ih seen m hm
    · rw [if_neg h] at hm ⊢
      rcases List.mem_cons.mp hm with hm | hm
      · subst hm
        exact dedupNew_seen_mono ms _ _ (List.mem_cons_self _ _)
      · exact ih _ m hm

/-- The messages kept by one dedup step have pairwise distinct stripped
texts. -/
theorem dedupNew_pairwise :
    ∀ (cur : List Msg) (seen : List String),
      ((dedupNew cur seen).1).Pairwise
        (fun a b => pyStrip a.text ≠ pyStrip b.text) := by
  intro cur
  induction cur with
  | nil => intro seen; simp [dedupNew]
  | cons m0 ms ih =>
    intro seen
    simp only [dedupNew]
    by_cases h : pyStrip m0.text = "" ∨ pyStrip m0.text ∈ seen
    · rw [if_pos h]
      exact ih seen
    · rw [if_neg h]
      refine List.pairwise_cons.mpr ⟨?_, ih _⟩
      intro b hb
      obtain ⟨_, hnmem⟩ := dedupNew_mem_strip ms _ b hb
      intro heq
      exact hnmem (by rw [← heq]; exact List.mem_cons_self _ _)

/-- Invariant of the retry loop: starting from an accumulator of
non-empty, pairwise-distinct stripped texts all recorded in the seen set,
the final result again consists of non-empty, pairwise-distinct stripped
texts. -/
theorem retryAux_sound (gen : Nat → List String) (sf : List String → List Msg)
    (minR : Nat) :
    ∀ (fuel rc : Nat) (acc : List Msg) (seen : List String),
      (∀ m ∈ acc, pyStrip m.text ≠ "") →
      acc.Pairwise (fun a b => pyStrip a.text ≠ pyStrip b.text) →
      (∀ m ∈ acc, pyStrip m.text ∈ seen) →
      (∀ m ∈ (retryAux gen sf minR fuel rc acc seen).1, pyStrip m.text ≠ "") ∧
        ((retryAux gen sf minR fuel rc acc seen).1).Pairwise
          (fun a b => pyStrip a.text ≠ pyStrip b.text) := by
  intro fuel
  induction fuel with
  | zero =>
    intro rc acc seen hne hpw _
    simpa [retryAux] using ⟨hne, hpw⟩
  | succ fuel ih =>
    intro rc acc seen hne hpw hseen
    have hacc' : ∀ m ∈ acc ++ (dedupNew (sf (gen rc)) seen).1, pyStrip m.text ≠ "" := by
      intro m hm
      rcases List.mem_append.mp hm with hm | hm
      · exact hne m hm
      · exact (dedupNew_mem_strip _ _ m hm).1
    have hpw' : (acc ++ (dedupNew (sf (gen rc)) seen).1).Pairwise
        (fun a b => pyStrip a.text ≠ pyStrip b.text) := by
      refine List.pairwise_append.mpr ⟨hpw, dedupNew_pairwise _ _, ?_⟩
      intro a ha b hb heq
      exact (dedupNew_mem_strip _ _ b hb).2 (by rw [← heq]; exact hseen a ha)
    simp only [retryAux]
    by_cases hgen : gen rc = []
    · rw [if_pos hgen]
      exact ⟨hne, hpw⟩
    · rw [if_neg hgen]
      by_cases hmin : minR ≤ (acc ++ (dedupNew (sf (gen rc)) seen).1).length
      · rw [if_pos hmin]
        exact ⟨hacc', hpw'⟩
      · rw [if_neg hmin]
        have hseen' : ∀ m ∈ acc ++ (dedupNew (sf (gen rc)) seen).1,
            pyStrip m.text ∈ (dedupNew (sf (gen rc)) seen).2 := by
          intro m hm
          rcases List.mem_append.mp hm with hm | hm
          · exact dedupNew_seen_mono _ _ _ (hseen m hm)
          · exact dedupNew_mem_seen _ _ m hm
        exact ih (rc + 1) (acc ++ (dedupNew (sf (gen rc)) seen).1)
          (dedupNew (sf (gen rc)) seen).2 hacc' hpw' hseen'

/-- C10: every message returned by
`SearchRetryStrategy.execute_search_with_retry` has non-empty stripped
text, and the stripped texts of the returned messages are pairwise
distinct across all attempts (whitespace-only retrieved messages are
silently dropped and never counted). -/
theorem retry_results_nonempty_distinct (gen : Nat → List String)
    (sf : List String → List Msg) (maxRetries minR : Nat) :
    (∀ m ∈ (executeSearchWithRetry gen sf maxRetries minR).1,
      pyStrip m.text ≠ "") ∧
      ((executeSearchWithRetry gen sf maxRetries minR).1).Pairwise
        (fun a b => pyStrip a.text ≠ pyStrip b.text) := by
  unfold executeSearchWithRetry
  exact retryAux_sound gen sf minR maxRetries 0 [] [] (by simp) (by simp) (by simp)

/-- C10 witness: a retrieved message consisting of surrounding
whitespace around `x` survives with non-empty stripped text. -/
theorem retry_results_nonempty_distinct_witness :
    pyStrip (Msg.text ⟨"1", " x "⟩) ≠ "" :=
  (retry_results_nonempty_distinct (fun _ => ["k"]) (fun _ => [⟨"1", " x "⟩]) 3 3).1
    ⟨"1", " x "⟩ (by decide)

/-- The synthesized fallback answer is never the empty string. -/
theorem generate_fallback_answer_ne_empty (tf : String → String) (messages : List Msg) :
    generate_fallback_answer tf messages ≠ "" := by
  intro h
  have hlen := congrArg String.length h
  rw [generate_fallback_answer] at hlen
  rw [String.length_append, String.length_append, String.length_append,
    String.length_append] at hlen
  have h5 : ("[送信] " : String).length = 5 := rfl
  rw [h5] at hlen
  simp at hlen

/-- After the fallback guard, the best answer is never empty. -/
theorem bestAnswerOf_ne_empty (tf : String → String) (messages : List Msg)
    (best : String × AnswerQuality) : bestAnswerOf tf messages best ≠ "" := by
  unfold bestAnswerOf
  by_cases h : best.1 = ""
  · rw [if_pos h]
    exact generate_fallback_answer_ne_empty tf messages
  · rw [if_neg h]
    exact h

/-- A successful cache lookup returns an entry of the cache. -/
theorem cacheLookup_mem :
    ∀ (cache : List (String × String × AnswerQuality)) (key : String)
      (v : String × AnswerQuality),
      cacheLookup key cache = some v → (key, v) ∈ cache := by
  intro cache
  induction cache with
  | nil => intro key v h; simp [cacheLookup] at h
  | cons e rest ih =>
    intro key v h
    simp only [cacheLookup] at h
    by_cases he : e.1 = key
    · rw [if_pos he] at h
      obtain rfl := Option.some.inj h
      subst he
      exact List.mem_cons_self _ _
    · rw [if_neg he] at h
      exact List.mem_cons_of_mem _ (ih key v h)

/-- If every executed attempt's stripped answer is empty, the loop's best
answer stays empty. -/
theorem genLoop_all_empty :
    ∀ (attempts : List (Option (String × AnswerQuality)))
      (best : String × AnswerQuality),
      best.1 = "" →
      (∀ s q, some (s, q) ∈ attempts → pyStrip s = "") →
      ((genLoop attempts best).1).1 = "" := by
  intro attempts
  induction attempts with
  | nil => intro best hbest _; simpa [genLoop] using hbest
  | cons a rest ih =>
    intro best hbest hall
    cases a with
    | none =>
      simp only [genLoop]
      exact ih best hbest (fun s q hs => hall s q (List.mem_cons_of_mem _ hs))
    | some rq =>
      obtain ⟨raw, q⟩ := rq
      have hraw : pyStrip raw = "" := hall raw q (List.mem_cons_self _ _)
      have hbest' :
          (if best.2.confidence_score < q.confidence_score then (pyStrip raw, q)
            else best).1 = "" := by
        split_ifs with h
        · exact hraw
        · exact hbest
      simp only [genLoop]
      by_cases hq : (8 : ℚ) / 10 ≤ q.confidence_score
      · rw [if_pos hq]
        exact hbest'
      · rw [if_neg hq]
        exact ih _ hbest' (fun s q' hs => hall s q' (List.mem_cons_of_mem _ hs))

/-- On a cache miss with a non-empty message list, `generate_answer`
returns a non-empty answer and prepends exactly that answer (with its
quality) to the cache under the call's key. -/
theorem generate_answer_miss (tf : String → String)
    (cache : List (String × String × AnswerQuality)) (query : String)
    (messages : List Msg) (attempts : List (Option (String × AnswerQuality)))
    (hm : messages ≠ [])
    (hc : cacheLookup (query ++ "_" ++ (messages.headD ⟨"", ""⟩).ts) cache = none) :
    (generate_answer tf cache query messages attempts).answer ≠ "" ∧
      (generate_answer tf cache query messages attempts).cache =
        (query ++ "_" ++ (messages.headD ⟨"", ""⟩).ts,
          (generate_answer tf cache query messages attempts).answer,
          (generate_answer tf cache query messages attempts).quality) :: cache := by
  unfold generate_answer
  rw [if_neg hm, hc]
  refine ⟨bestAnswerOf_ne_empty tf messages _, ?_⟩
  unfold cacheUpdate
  rw [if_neg (bestAnswerOf_ne_empty tf messages _)]

/-- On a cache hit with a non-empty message list, `generate_answer`
returns the stored pair verbatim, leaves the cache unchanged and
executes no attempt. -/
theorem generate_answer_hit (tf : String → String)
    (cache : List (String × String × AnswerQuality)) (query : String)
    (messages : List Msg) (attempts : List (Option (String × AnswerQuality)))
    (aq : String × AnswerQuality)
    (hm : messages ≠ [])
    (hc : cacheLookup (query ++ "_" ++ (messages.headD ⟨"", ""⟩).ts) cache = some aq) :
    generate_answer tf cache query messages attempts = ⟨aq.1, aq.2, cache, 0⟩ := by
  unfold generate_answer
  rw [if_neg hm, hc]

/-- C6: for every non-empty message list (with a well-formed cache, whose
entries are the non-empty answers the generator itself stores),
`generate_answer` returns a non-empty answer; and when the attempts run
(cache miss) and no attempt produced a non-empty stripped answer, the
returned pair is exactly the synthesized fallback answer with the fixed
quality (all flags true, confidence 0.6). -/
theorem answer_nonempty_and_fallback (tf : String → String)
    (cache : List (String × String × AnswerQuality)) (query : String)
    (messages : List Msg) (attempts : List (Option (String × AnswerQuality)))
    (hm : messages ≠ [])
    (hwf : ∀ e ∈ cache, e.2.1 ≠ "") :
    (generate_answer tf cache query messages attempts).answer ≠ "" ∧
      (cacheLookup (query ++ "_" ++ (messages.headD ⟨"", ""⟩).ts) cache = none →
        (∀ s q, some (s, q) ∈ attempts → pyStrip s = "") →
        (generate_answer tf cache query messages attempts).answer =
            generate_fallback_answer tf messages ∧
          (generate_answer tf cache query messages attempts).quality =
            fallbackQuality) := by
  constructor
  · cases hc : cacheLookup (query ++ "_" ++ (messages.headD ⟨"", ""⟩).ts) cache with
    | none => exact (generate_answer_miss tf cache query messages attempts hm hc).1
    | some aq =>
      unfold generate_answer
      rw [if_neg hm, hc]
      exact hwf _ (cacheLookup_mem cache _ aq hc)
  · intro hc hall
    have hempty : ((genLoop attempts ("", emptyQuality)).1).1 = "" :=
      genLoop_all_empty attempts ("", emptyQuality) rfl hall
    unfold generate_answer
    rw [if_neg hm, hc]
    constructor
    · show bestAnswerOf tf messages (genLoop attempts ("", emptyQuality)).1 = _
      unfold bestAnswerOf
      rw [if_pos hempty]
    · show bestQualityOf (genLoop attempts ("", emptyQuality)).1 = _
      unfold bestQualityOf
      rw [if_pos hempty]

/-- C6 witness: a fresh generator (empty cache) asked once with a single
message and no successful attempts. -/
theorem answer_nonempty_and_fallback_witness :
    (generate_answer (fun _ => "2024年01月01日 00:00") [] "q" [⟨"1", "hi"⟩] []).answer ≠ "" :=
  (answer_nonempty_and_fallback (fun _ => "2024年01月01日 00:00") [] "q" [⟨"1", "hi"⟩] []
    (by decide) (by intro e he; simp at he)).1

/-- C7: two calls with the same query and the same first-message
timestamp return the same (answer, quality) pair the second time, leave
the cache unchanged, and perform no model call (0 executed attempts),
regardless of the second call's message texts or attempt outcomes. -/
theorem answer_cache_idempotent (tf1 tf2 : String → String)
    (cache : List (String × String × AnswerQuality)) (query : String)
    (m1 m2 : List Msg)
    (att1 att2 : List (Option (String × AnswerQuality)))
    (h1 : m1 ≠ []) (h2 : m2 ≠ [])
    (hts : (m2.headD ⟨"", ""⟩).ts = (m1.headD ⟨"", ""⟩).ts) :
    generate_answer tf2 (generate_answer tf1 cache query m1 att1).cache query m2 att2 =
      ⟨(generate_answer tf1 cache query m1 att1).answer,
        (generate_answer tf1 cache query m1 att1).quality,
        (generate_answer tf1 cache query m1 att1).cache, 0⟩ := by
  have hkey : query ++ "_" ++ (m2.headD ⟨"", ""⟩).ts =
      query ++ "_" ++ (m1.headD ⟨"", ""⟩).ts := by rw [hts]
  cases hc : cacheLookup (query ++ "_" ++ (m1.headD ⟨"", ""⟩).ts) cache with
  | some aq =>
    have hr1 : generate_answer tf1 cache query m1 att1 = ⟨aq.1, aq.2, cache, 0⟩ :=
      generate_answer_hit tf1 cache query m1 att1 aq h1 hc
    rw [hr1]
    exact generate_answer_hit tf2 cache query m2 att2 aq h2 (by rw [hkey]; exact hc)
  | none =>
    obtain ⟨hne, hcache⟩ := generate_answer_miss tf1 cache query m1 att1 h1 hc
    have hhit : cacheLookup (query ++ "_" ++ (m2.headD ⟨"", ""⟩).ts)
        (generate_answer tf1 cache query m1 att1).cache =
        some ((generate_answer tf1 cache query m1 att1).answer,
          (generate_answer tf1 cache query m1 att1).quality) := by
      rw [hkey, hcache]
      simp [cacheLookup]
    exact generate_answer_hit tf2 (generate_answer tf1 cache query m1 att1).cache
      query m2 att2 _ h2 hhit

/-- C7 witness: the second identical call performs zero model calls. -/
theorem answer_cache_idempotent_witness :
    (generate_answer (fun _ => "T")
        (generate_answer (fun _ => "T") [] "q" [⟨"1", "hi"⟩] []).cache
        "q" [⟨"1", "zz"⟩] [some ("other", ⟨true, true, true, true, 1⟩)]).model_calls = 0 := by
  rw [answer_cache_idempotent (fun _ => "T") (fun _ => "T") [] "q"
    [⟨"1", "hi"⟩] [⟨"1", "zz"⟩] [] [some ("other", ⟨true, true, true, true, 1⟩)]
    (by decide) (by decide) rfl]

/-- C9: `extract_date_range` maps `"今日"` to today's ISO date twice and
`"2024年3月1日"` to `("2024-03-01", "2024-03-01")` for every current
date; and whenever no relative pattern occurs in the query and the
specific-date scan either finds nothing or yields an invalid calendar
date (after defaulting a missing year to the current year), the result is
`(none, none)` — without raising. -/
theorem extract_date_range_spec :
    (∀ today : Date,
      extract_date_range today "今日" = (some (isoDate today), some (isoDate today))) ∧
    (∀ today : Date,
      extract_date_range today "2024年3月1日" =
        (some "2024-03-01", some "2024-03-01")) ∧
    (∀ (today : Date) (query : String),
      findRelative query (relative_date_handlers today) = none →
      (∀ y m d, scanSpecific query.toList = some (y, m, d) →
        validDate (y.getD today.year) m d = false) →
      extract_date_range today query = (none, none)) := by
  refine ⟨fun _ => rfl, ?_, ?_⟩
  · intro today
    have h : extract_date_range today "2024年3月1日" =
        (some (isoDate ⟨2024, 3, 1⟩), some (isoDate ⟨2024, 3, 1⟩)) := rfl
    rw [h]
    decide
  intro today query h1 h2
  unfold extract_date_range
  rw [h1]
  cases hscan : scanSpecific query.toList with
  | none => rfl
  | some ymd =>
    obtain ⟨y, m, d⟩ := ymd
    have hv := h2 y m d hscan
    simp [hv]

/-- C9 witness: the invalid calendar date `2月30日` and a dateless query
both yield `(None, None)`. -/
theorem extract_date_range_spec_witness :
    extract_date_range ⟨2024, 5, 5⟩ "2月30日" = (none, none) ∧
      extract_date_range ⟨2024, 5, 5⟩ "検索" = (none, none) := by
  constructor
  · refine extract_date_range_spec.2.2 ⟨2024, 5, 5⟩ "2月30日" (by decide) ?_
    intro y m d h
    have h' : (some ((none : Option Nat), 2, 30) : Option (Option Nat × Nat × Nat)) =
        some (y, m, d) := by
      rw [← h]
      decide
    obtain ⟨rfl, rfl, rfl⟩ : (none : Option Nat) = y ∧ (2 : Nat) = m ∧ (30 : Nat) = d := by
      simpa using h'
    decide
  · refine extract_date_range_spec.2.2 ⟨2024, 5, 5⟩ "検索" (by decide) ?_
    intro y m d h
    have h' : (none : Option (Option Nat × Nat × Nat)) = some (y, m, d) := by
      rw [← h]
      decide
    simp at h'

/-- C1 witness: a concrete candidate matching the keyword `hello`
against query `hello` receives exactly the specified score. -/
theorem relevance_score_matches_spec_formula_witness :
    (score_of (pySplit (pyLower "hello")).toFinset (pySplit (pyLower "hello"))
        ⟨⟨"1", "hello there"⟩, {"hello"}, 0⟩).relevance_score =
      min ((6 / 10) * ((({"hello"} : Finset String).card : ℚ) /
            (((pySplit (pyLower "hello")).toFinset.card : ℚ))) +
          (if (pySplit (pyLower "hello")).any
              (fun w => containsSubStr w (pyLower (pyStrip "hello there"))) then
            (4 : ℚ) / 10
          else 0))
        1 :=
  relevance_score_matches_spec_formula
    [⟨⟨"1", "hello there"⟩, {"hello"}, 0⟩] "hello"
    [score_of (pySplit (pyLower "hello")).toFinset (pySplit (pyLower "hello"))
      ⟨⟨"1", "hello there"⟩, {"hello"}, 0⟩]
    (score_of (pySplit (pyLower "hello")).toFinset (pySplit (pyLower "hello"))
      ⟨⟨"1", "hello there"⟩, {"hello"}, 0⟩)
    (by rw [Ne, List.toFinset_eq_empty_iff]; decide)
    rfl
    (List.mem_singleton_self _)
    (by simp [score_of])

/-- C2 witness: a whitespace-only query (empty token set) with one
candidate makes `_evaluate_relevance` fail. -/
theorem relevance_empty_query_raises_witness :
    evaluate_relevance [⟨⟨"2", "abc"⟩, {"a"}, 0⟩] " " = none :=
  relevance_empty_query_raises_and_search_returns_empty.1
    [⟨⟨"2", "abc"⟩, {"a"}, 0⟩] " " (by decide) (by decide)

/-- C8 witness: the concrete scored result for message `hello world`
against term and query `hello` satisfies the invariants. -/
theorem search_result_invariants_witness :
    (score_of (pySplit (pyLower "hello")).toFinset (pySplit (pyLower "hello"))
          ⟨⟨"1", "hello world"⟩,
            (matched_keyword_list ["hello"]
              (pyLower (pyStrip "hello world"))).toFinset, 0⟩).matched_keywords ≠ ∅ ∧
      0 ≤ (score_of (pySplit (pyLower "hello")).toFinset (pySplit (pyLower "hello"))
          ⟨⟨"1", "hello world"⟩,
            (matched_keyword_list ["hello"]
              (pyLower (pyStrip "hello world"))).toFinset, 0⟩).relevance_score ∧
      (score_of (pySplit (pyLower "hello")).toFinset (pySplit (pyLower "hello"))
          ⟨⟨"1", "hello world"⟩,
            (matched_keyword_list ["hello"]
              (pyLower (pyStrip "hello world"))).toFinset, 0⟩).relevance_score ≤ 1 :=
  search_result_invariants.1 [⟨"1", "hello world"⟩] ["hello"] "hello"
    [score_of (pySplit (pyLower "hello")).toFinset (pySplit (pyLower "hello"))
      ⟨⟨"1", "hello world"⟩,
        (matched_keyword_list ["hello"] (pyLower (pyStrip "hello world"))).toFinset, 0⟩]
    (score_of (pySplit (pyLower "hello")).toFinset (pySplit (pyLower "hello"))
      ⟨⟨"1", "hello world"⟩,
        (matched_keyword_list ["hello"] (pyLower (pyStrip "hello world"))).toFinset, 0⟩)
    rfl
    (List.mem_singleton_self _)

/-- The cache well-formedness used in the statement above is an invariant:
every call leaves the cache containing only non-empty stored answers,
so it holds of every reachable cache state (starting from the empty cache
of `__init__`). -/
theorem generate_answer_cache_wf (tf : String → String)
    (cache : List (String × String × AnswerQuality)) (query : String)
    (messages : List Msg) (attempts : List (Option (String × AnswerQuality)))
    (hwf : ∀ e ∈ cache, e.2.1 ≠ "") :
    ∀ e ∈ (generate_answer tf cache query messages attempts).cache, e.2.1 ≠ "" := by
  by_cases hm : messages = []
  · subst hm
    intro e he
    exact hwf e he
  · cases hc : cacheLookup (query ++ "_" ++ (messages.headD ⟨"", ""⟩).ts) cache with
    | some aq =>
      rw [generate_answer_hit tf cache query messages attempts aq hm hc]
      exact hwf
    | none =>
      obtain ⟨hne, hcache⟩ := generate_answer_miss tf cache query messages attempts hm hc
      rw [hcache]
      intro e he
      rcases List.mem_cons.mp he with he | he
      · subst he
        exact hne
      · exact hwf e he
